import Mathlib

/-!
Verification development for `src/GPT_RP.py`, a small FastAPI role-play
service.  The Python source is shallowly embedded below:

* Python strings become `String`, YAML values become the inductive `Yaml`,
  Python dicts become association lists (`Assoc`) with insertion-order
  update semantics (`dictSet`).
* The filesystem (existence checks, `Path.resolve`, the
  `relative_to(CHAR_DIR.resolve())` containment test, `open`+`yaml.safe_load`,
  and `iterdir`) is an abstract read-only structure `FS`; these operations
  belong to external collaborators (pathlib / PyYAML / the OS) and are
  therefore modelled as oracles, while all logic of `GPT_RP.py` itself is
  translated faithfully.
* Exceptions become `Except`: `HTTPException(status, detail)` and plain
  Python exceptions are the two constructors of `LoadErr`; `str.format`
  failures are `FmtErr`.
* `random.choice` takes an extra oracle argument `rand : Nat` and picks
  index `rand % length`, so every possible choice is covered by some `rand`.
* `load_character_yaml` additionally returns the list of file paths whose
  contents it opened, in order, so that "no file content is read" becomes
  provable.
-/

/-! ### Python string helpers -/

/-- Python `str.lower()`.  `Char.toLower` lowers ASCII letters; the only
non-ASCII characters appearing in the service's keyword sets are Chinese,
which Python's `lower()` also leaves unchanged. -/
def pyLower (s : String) : String := String.mk (s.data.map Char.toLower)

/-- `leadsWith n h` is true when the character list `n` starts the list `h`. -/
def leadsWith : List Char → List Char → Bool
  | [], _ => true
  | _ :: _, [] => false
  | c :: cs, h :: hs => c == h && leadsWith cs hs

/-- `subChars needle hay`: `needle` occurs contiguously inside `hay`. -/
def subChars (needle : List Char) : List Char → Bool
  | [] => leadsWith needle []
  | h :: t => leadsWith needle (h :: t) || subChars needle t

/-- Python's substring test `needle in hay`. -/
def strContains (hay needle : String) : Bool := subChars needle.data hay.data

/-- The identifier check `'/' in lc_name or '\\' in lc_name`. -/
def hasPathSep (s : String) : Bool := strContains s "/" || strContains s "\\"

/-! ### YAML values and Python dict operations -/

/-- Values produced by `yaml.safe_load`.  Mappings are association lists in
document order; parsed YAML mappings have pairwise distinct keys. -/
inductive Yaml where
  | null
  | bool (b : Bool)
  | int (n : Int)
  | str (s : String)
  | list (xs : List Yaml)
  | map (kvs : List (String × Yaml))

abbrev Assoc := List (String × Yaml)

/-- Python truthiness of a YAML value. -/
def Yaml.truthy : Yaml → Bool
  | .null => false
  | .bool b => b
  | .int n => n != 0
  | .str s => !s.isEmpty
  | .list xs => !xs.isEmpty
  | .map kvs => !kvs.isEmpty

/-- Python `str()` of a YAML value, as used in f-strings.  The rendering of
containers is abstracted (no code path in the claims applies `str()` to a
container). -/
def pyStr : Yaml → String
  | .null => "None"
  | .bool b => if b then "True" else "False"
  | .int n => toString n
  | .str s => s
  | .list _ => "<list>"
  | .map _ => "<dict>"

/-- Python dict lookup `d[k]` / `d.get(k)` on an association list. -/
def alookup (k : String) : Assoc → Option Yaml
  | [] => none
  | (k', v) :: rest => if k' = k then some v else alookup k rest

/-- Python dict assignment `d[k] = v`: replace in place if the key is
present, otherwise append (insertion order preserved). -/
def dictSet : Assoc → String → Yaml → Assoc
  | [], k, v => [(k, v)]
  | (k', v') :: rest, k, v =>
      if k' = k then (k, v) :: rest else (k', v') :: dictSet rest k v

/-- `for key, value in m.items(): d[key] = value` — the shallow merge loop
of `load_character_yaml`. -/
def mergeDict (d : Assoc) (m : Assoc) : Assoc :=
  m.foldl (fun acc kv => dictSet acc kv.1 kv.2) d

/-- Shallow-merging a list of module mappings into the character mapping,
in list order. -/
def mergeAll (d : Assoc) (mods : List Assoc) : Assoc := mods.foldl mergeDict d

/-- `Option` alternative, first-hit wins. -/
def optOr (a b : Option Yaml) : Option Yaml :=
  match a with
  | some v => some v
  | none => b

/-- Modelled from the spec: "later file wins on key collision" — the value a
key receives from a module list is the value in the LAST module that
contains the key. -/
def lastHit (k : String) : List Assoc → Option Yaml
  | [] => none
  | m :: rest => optOr (lastHit k rest) (alookup k m)

/-- Python `k in d` on a dict. -/
def containsKey (k : String) (d : Assoc) : Bool := (alookup k d).isSome

/-- Python iteration `for x in v` over a YAML value: lists yield elements,
strings yield one-character strings, dicts yield their keys, everything
else raises `TypeError`. -/
def yamlIter : Yaml → Except String (List Yaml)
  | .list xs => .ok xs
  | .str s => .ok (s.data.map (fun c => Yaml.str (String.mk [c])))
  | .map kvs => .ok (kvs.map (fun kv => Yaml.str kv.1))
  | _ => .error "TypeError: not iterable"

/-! ### Python `str.format` with keyword arguments `name` and `msg` -/

inductive FmtErr where
  | keyErr
  | idxErr
  | valErr
deriving DecidableEq

/-- Scan a replacement field up to the closing brace; `none` when the brace
is never closed. -/
def readField (acc : List Char) : List Char → Option (List Char × List Char)
  | [] => none
  | '}' :: rest => some (acc.reverse, rest)
  | c :: rest => readField (c :: acc) rest

/-- Resolve one replacement field against the keyword arguments
`name`/`msg`: unknown identifiers raise `KeyError`, empty or numeric fields
raise `IndexError` (no positional arguments are supplied).  Conversion and
format-spec suffixes after `!`/`:` are ignored for the resolved keys (the
templates in this code base use none). -/
def fmtField (nm user_msg : String) (fld : List Char) : Except FmtErr String :=
  let key := fld.takeWhile (fun c => c != ':' && c != '!')
  if key = "name".data then .ok nm
  else if key = "msg".data then .ok user_msg
  else if key = [] then .error .idxErr
  else if key.all Char.isDigit then .error .idxErr
  else .error .keyErr

/-- The format scanner.  `fuel` only drives structural recursion; each step
consumes at least one character, so `fuel = length` never runs out. -/
def fmtGo (nm user_msg : String) : Nat → List Char → Except FmtErr String
  | _, [] => .ok ""
  | 0, _ :: _ => .error .valErr
  | fuel + 1, '{' :: '{' :: rest => (fmtGo nm user_msg fuel rest).map (fun s => "\x7b" ++ s)
  | fuel + 1, '}' :: '}' :: rest => (fmtGo nm user_msg fuel rest).map (fun s => "\x7d" ++ s)
  | _ + 1, '}' :: _ => .error .valErr
  | fuel + 1, '{' :: rest =>
      match readField [] rest with
      | none => .error .valErr
      | some (fld, rest2) =>
          match fmtField nm user_msg fld with
          | .error e => .error e
          | .ok v =>
              match fmtGo nm user_msg fuel rest2 with
              | .error e => .error e
              | .ok s => .ok (v ++ s)
  | fuel + 1, c :: rest => (fmtGo nm user_msg fuel rest).map (fun s => String.mk [c] ++ s)

/-- Python `tpl.format(name=nm, msg=user_msg)`. -/
def pyFormat (tpl nm user_msg : String) : Except FmtErr String :=
  fmtGo nm user_msg tpl.data.length tpl.data

/-! ### Mood classification and template selection (`pick_reply`) -/

inductive Mood where
  | angry
  | happy
  | neutral
deriving DecidableEq

def angryKeywords : List String := ["angry", "mad", "怒", "生氣"]

def happyKeywords : List String := ["happy", "love", "開心", "喜"]

/-- The mood-classification block of `pick_reply`. -/
def classifyMood (user_msg : String) : Mood :=
  let low := pyLower user_msg
  if angryKeywords.any (fun k => strContains low k) then .angry
  else if happyKeywords.any (fun k => strContains low k) then .happy
  else .neutral

def moodKey : Mood → String
  | .angry => "angry"
  | .happy => "happy"
  | .neutral => "neutral"

/-- The built-in `mood_templates` dict of `pick_reply`. -/
def mood_templates : Mood → List String
  | .angry => ["{name} 生氣地說：『{msg}』", "『{msg}』，{name} 語氣很差。"]
  | .happy => ["{name} 開心地說：『{msg}』", "『{msg}』，{name} 笑得很燦爛。"]
  | .neutral => ["{name} 說：『{msg}』", "『{msg}』，{name} 平靜地回覆。"]

/-- `random.choice`, with the oracle `rand` selecting the index. -/
def pyChoice (rand : Nat) (xs : List Yaml) : Yaml := xs.getD (rand % xs.length) .null

/-- Template selection of `pick_reply`:
`final_templates = {**mood_templates, **speech_patterns}` followed by
`tpl_list = final_templates.get(mood) or final_templates.get("neutral", ["{msg}"])`
and the `isinstance` dispatch.  `mood_templates` always contains the keys
`angry`/`happy`/`neutral`, so a merged lookup falls back to the built-in
template list exactly when `speech_patterns` lacks the key. -/
def selectTpl (spm : Assoc) (mood : Mood) (rand : Nat) : Yaml :=
  let a := (alookup (moodKey mood) spm).getD (.list ((mood_templates mood).map .str))
  let tl := if a.truthy then a
            else (alookup "neutral" spm).getD (.list ((mood_templates .neutral).map .str))
  match tl with
  | .list (x :: xs) => pyChoice rand (x :: xs)
  | .str s => .str s
  | _ => .str "{msg}"

/-- `char_data["basic_info"].get("stage_name", char_data["basic_info"].get("real_name", "角色"))`. -/
def nameFrom (bim : Assoc) : Yaml :=
  (alookup "stage_name" bim).getD ((alookup "real_name" bim).getD (.str "角色"))

/-- The `try: tpl.format(...) except ...` block of `pick_reply`.  A non-string
template raises `AttributeError` at `tpl.format`, caught by the generic
`except Exception`. -/
def formatStage (tpl : Yaml) (nm user_msg : String) : String :=
  match tpl with
  | .str t =>
      match pyFormat t nm user_msg with
      | .ok s => s
      | .error .keyErr => nm ++ " 回覆：" ++ user_msg ++ " (模板錯誤)"
      | .error _ => nm ++ " 回覆：" ++ user_msg ++ " (格式化錯誤)"
  | _ => nm ++ " 回覆：" ++ user_msg ++ " (格式化錯誤)"

/-- `pick_reply(char_data, user_msg)`.  `.error` carries the message of an
uncaught Python exception (`char_data` not a dict, `speech_patterns` not a
dict so that `{**mood_templates, **speech_patterns}` raises `TypeError`,
or `basic_info` missing / not a dict). -/
def pick_reply (char_data : Yaml) (user_msg : String) (rand : Nat) : Except String String :=
  match char_data with
  | .map d =>
      match (alookup "speech_patterns" d).getD (.map []) with
      | .map spm =>
          let mood := classifyMood user_msg
          let tpl := selectTpl spm mood rand
          match alookup "basic_info" d with
          | none => .error "KeyError: basic_info"
          | some (.map bim) => .ok (formatStage tpl (pyStr (nameFrom bim)) user_msg)
          | some _ => .error "AttributeError: basic_info"
      | _ => .error "TypeError: speech_patterns is not a mapping"
  | _ => .error "AttributeError: char_data"

/-! ### Filesystem abstraction and `load_character_yaml` -/

/-- One entry of `CHAR_DIR.iterdir()`. -/
structure DirEntry where
  name : String
  isFile : Bool

/-- Outcome of `open(p); yaml.safe_load(f)`: parsed document (`none` for an
empty file), a `yaml.YAMLError`, or any other exception while reading. -/
inductive ReadResult where
  | content (d : Option Yaml)
  | yamlError (msg : String)
  | readError (msg : String)

/-- The read-only filesystem oracle: existence, `Path.resolve`, the
`relative_to(CHAR_DIR.resolve())` containment test on a resolved path, file
reading/parsing, and the character-directory listing. -/
structure FS where
  pathExists : String → Bool
  resolvePath : String → String
  insideCharDir : String → Bool
  readYaml : String → ReadResult
  charDirList : List DirEntry

def CHAR_DIR : String := "Characters"

def DEFAULT_CHAR : String := "lior"

def charPath (lc ext : String) : String := CHAR_DIR ++ "/" ++ lc ++ ext

def modulePath (modname : Yaml) : String :=
  CHAR_DIR ++ "/modules/Module_" ++ pyStr modname ++ ".yaml"

/-- `HTTPException(status, detail)` or an uncaught plain Python exception. -/
inductive LoadErr where
  | http (status : Nat) (detail : String)
  | py (msg : String)

/-- The `for ext in (".yaml", ".yml")` candidate search. -/
def resolveCand (fs : FS) (lc : String) : Option String :=
  if fs.pathExists (charPath lc ".yaml") then some (charPath lc ".yaml")
  else if fs.pathExists (charPath lc ".yml") then some (charPath lc ".yml")
  else none

/-- The module-mounting loop.  The second component lists the module files
whose contents were opened, in order. -/
def loadModules (fs : FS) : Assoc → List Yaml → Except LoadErr Assoc × List String
  | data, [] => (.ok data, [])
  | data, m :: rest =>
      let mp := modulePath m
      if fs.pathExists mp then
        match fs.readYaml mp with
        | .yamlError e =>
            (.error (.http 500 ("解析模組 " ++ pyStr m ++ ".yaml 時發生錯誤：" ++ e)), [mp])
        | .readError _ =>
            (.error (.http 500 ("讀取模組 " ++ pyStr m ++ ".yaml 時發生未知錯誤。")), [mp])
        | .content mopt =>
            match mopt.getD (.map []) with
            | .map mkvs =>
                let r := loadModules fs (mergeDict data mkvs) rest
                (r.1, mp :: r.2)
            | _ =>
                (.error (.http 500 ("讀取模組 " ++ pyStr m ++ ".yaml 時發生未知錯誤。")), [mp])
      else (.error (.http 500 ("模組 " ++ pyStr m ++ " 不存在！")), [])

/-- `load_character_yaml(char_name)`.  The second component is the ordered
list of files whose contents were opened. -/
def load_character_yaml (fs : FS) (char_name : String) : Except LoadErr Yaml × List String :=
  let lc := pyLower char_name
  if hasPathSep lc then
    (.error (.http 400 "非法角色卡路徑！名稱中包含路徑分隔符。"), [])
  else
    match resolveCand fs lc with
    | none => (.error (.http 404 ("角色卡 " ++ char_name ++ " 不存在！")), [])
    | some cand =>
        let resolved := fs.resolvePath cand
        if fs.insideCharDir resolved then
          match fs.readYaml resolved with
          | .yamlError e =>
              (.error (.http 500 ("解析角色卡 " ++ char_name ++ ".yaml 時發生錯誤：" ++ e)),
               [resolved])
          | .readError _ =>
              (.error (.http 500 ("讀取角色卡 " ++ char_name ++ ".yaml 時發生未知錯誤。")),
               [resolved])
          | .content dopt =>
              match dopt.getD (.map []) with
              | .map d0 =>
                  match (alookup "character_modules" d0).getD (.map []) with
                  | .map cmd =>
                      match yamlIter ((alookup "mounted_modules" cmd).getD (.list [])) with
                      | .error e => (.error (.py e), [resolved])
                      | .ok modnames =>
                          let r := loadModules fs d0 modnames
                          match r.1 with
                          | .error e => (.error e, resolved :: r.2)
                          | .ok dfinal =>
                              if containsKey "basic_info" dfinal then
                                (.ok (.map dfinal), resolved :: r.2)
                              else
                                (.error (.http 500 (char_name ++
                                  ".yaml（含模組）欄位不完整，缺 basic_info")), resolved :: r.2)
                  | _ => (.error (.py "AttributeError: character_modules"), [resolved])
              | _ => (.error (.py "AttributeError: data has no .get"), [resolved])
        else (.error (.http 400 "角色卡路徑越界！"), [])

/-- The loader's result alone. -/
def loadChar (fs : FS) (char_name : String) : Except LoadErr Yaml :=
  (load_character_yaml fs char_name).1

/-! ### The HTTP endpoints -/

structure ReplyAtom where
  name : String
  reply : String
deriving DecidableEq

structure MessageIn where
  message : String
  characters : Option (List String)

structure ReplyOut where
  replies : List ReplyAtom
deriving DecidableEq

/-- The error-text replies substituted by `respond`'s `except` clauses. -/
def errReplyText (char_name : String) : LoadErr → String
  | .http _ detail => "錯誤：無法載入或處理角色 " ++ char_name ++ " (" ++ detail ++ ")"
  | .py _ => "錯誤：處理角色 " ++ char_name ++ " 時發生未知錯誤"

/-- One iteration of `respond`'s loop over `char_list`, with its
`except HTTPException` / `except Exception` handlers. -/
def processChar (fs : FS) (r : Nat) (user_msg char_name : String) : ReplyAtom :=
  match loadChar fs char_name with
  | .error e => ⟨char_name, errReplyText char_name e⟩
  | .ok d =>
      match pick_reply d user_msg r with
      | .ok t => ⟨char_name, t⟩
      | .error _ => ⟨char_name, "錯誤：處理角色 " ++ char_name ++ " 時發生未知錯誤"⟩

/-- `payload.characters or [DEFAULT_CHAR]` (an empty list is falsy). -/
def effChars (payload : MessageIn) : List String :=
  match payload.characters with
  | none => [DEFAULT_CHAR]
  | some l => if l.isEmpty then [DEFAULT_CHAR] else l

/-- The loop of `respond`, threading the position for the `random.choice`
oracle. -/
def respondFrom (fs : FS) (rand : Nat → Nat) (user_msg : String) :
    Nat → List String → List ReplyAtom
  | _, [] => []
  | i, c :: cs => processChar fs (rand i) user_msg c :: respondFrom fs rand user_msg (i + 1) cs

/-- `POST /respond`. -/
def respond (fs : FS) (rand : Nat → Nat) (payload : MessageIn) : ReplyOut :=
  ⟨respondFrom fs rand payload.message 0 (effChars payload)⟩

/-- `pathlib.PurePath.suffix`: last dot index, valid when strictly inside. -/
def lastDotIdx (cs : List Char) : Option Nat :=
  match cs.reverse.findIdx? (fun c => c == '.') with
  | some j => some (cs.length - 1 - j)
  | none => none

def pathSuffix (n : String) : String :=
  match lastDotIdx n.data with
  | some i => if 0 < i ∧ i < n.data.length - 1 then String.mk (n.data.drop i) else ""
  | none => ""

def pathStem (n : String) : String :=
  match lastDotIdx n.data with
  | some i => if 0 < i ∧ i < n.data.length - 1 then String.mk (n.data.take i) else n
  | none => n

/-- `GET /list_roles`. -/
def list_roles (fs : FS) : List String :=
  (fs.charDirList.filter (fun f =>
      f.isFile && (pyLower (pathSuffix f.name) == ".yaml" ||
                   pyLower (pathSuffix f.name) == ".yml"))).map
    (fun f => pathStem f.name)

/-! ### Concrete filesystem instances used by witnesses and counterexamples -/

/-- The `lior.yaml` of the spec's worked example. -/
def liorYaml : Yaml :=
  .map [("basic_info", .map [("stage_name", .str "Lior")]),
        ("speech_patterns", .map [("angry", .str "{name}怒道：{msg}")])]

def fsLior : FS where
  pathExists := fun p => p == "Characters/lior.yaml"
  resolvePath := fun p => p
  insideCharDir := fun p => p == "Characters/lior.yaml"
  readYaml := fun p =>
    if p == "Characters/lior.yaml" then .content (some liorYaml) else .readError "missing"
  charDirList := []

/-- An empty character directory. -/
def fsEmpty : FS where
  pathExists := fun _ => false
  resolvePath := fun p => p
  insideCharDir := fun _ => true
  readYaml := fun _ => .readError "missing"
  charDirList := []

/-- A directory where `evil.yaml` exists but resolves (e.g. via a symlink)
to a path outside the character directory; its content would be readable. -/
def fsEvil : FS where
  pathExists := fun p => p == "Characters/evil.yaml"
  resolvePath := fun _ => "/outside/evil.yaml"
  insideCharDir := fun _ => false
  readYaml := fun _ => .content (some (.map [("secret", .str "x")]))
  charDirList := []

/-- The character card of the module-merge witness. -/
def heroYaml : Assoc :=
  [("basic_info", .map [("stage_name", .str "H")]),
   ("character_modules", .map [("mounted_modules", .list [.str "a", .str "b"])]),
   ("k", .map [("x", .int 1)])]

def heroMods : List (String × Assoc) :=
  [("a", [("k", .map [("y", .int 2)])]),
   ("b", [("k", .map [("z", .int 3)])])]

def fsMods : FS where
  pathExists := fun p =>
    p == "Characters/hero.yaml" || p == "Characters/modules/Module_a.yaml" ||
      p == "Characters/modules/Module_b.yaml"
  resolvePath := fun p => p
  insideCharDir := fun p => p == "Characters/hero.yaml"
  readYaml := fun p =>
    if p == "Characters/hero.yaml" then .content (some (.map heroYaml))
    else if p == "Characters/modules/Module_a.yaml" then
      .content (some (.map [("k", .map [("y", .int 2)])]))
    else if p == "Characters/modules/Module_b.yaml" then
      .content (some (.map [("k", .map [("z", .int 3)])]))
    else .readError "missing"
  charDirList := []

/-! ### Helper lemmas -/

theorem processChar_name (fs : FS) (r : Nat) (user_msg char_name : String) :
    (processChar fs r user_msg char_name).name = char_name := by
  rcases h : loadChar fs char_name with e | d
  · simp [processChar, h]
  · rcases h2 : pick_reply d user_msg r with e2 | t <;> simp [processChar, h, h2]

theorem respondFrom_length (fs : FS) (rand : Nat → Nat) (user_msg : String) :
    ∀ (cs : List String) (i : Nat), (respondFrom fs rand user_msg i cs).length = cs.length := by
  intro cs
  induction cs with
  | nil => intro i; rfl
  | cons c cs ih => intro i; simp [respondFrom, ih]

theorem respondFrom_getD (fs : FS) (rand : Nat → Nat) (user_msg : String) :
    ∀ (cs : List String) (i j : Nat), j < cs.length →
      (respondFrom fs rand user_msg i cs).getD j ⟨"", ""⟩ =
        processChar fs (rand (i + j)) user_msg (cs.getD j "") := by
  intro cs
  induction cs with
  | nil => intro i j h; simp at h
  | cons c cs ih =>
      intro i j h
      match j with
      | 0 => simp [respondFrom]
      | j + 1 =>
          have hj : j < cs.length := by simpa using h
          have := ih (i + 1) j hj
          simpa [respondFrom, Nat.add_assoc, Nat.add_comm, Nat.add_left_comm] using this

theorem alookup_dictSet_self (d : Assoc) (k : String) (v : Yaml) :
    alookup k (dictSet d k v) = some v := by
  induction d with
  | nil => simp [dictSet, alookup]
  | cons kv rest ih =>
      by_cases h : kv.1 = k
      · simp [dictSet, alookup, h]
      · simp [dictSet, alookup, h, ih]

theorem alookup_dictSet_ne (d : Assoc) (k k' : String) (v : Yaml) (h : k' ≠ k) :
    alookup k (dictSet d k' v) = alookup k d := by
  induction d with
  | nil => simp [dictSet, alookup, h]
  | cons kv rest ih =>
      obtain ⟨k0, v0⟩ := kv
      by_cases h2 : k0 = k'
      · subst h2
        simp [dictSet, alookup, h]
      · by_cases h3 : k0 = k
        · subst h3
          simp [dictSet, alookup, h2]
        · simp [dictSet, alookup, h2, h3, ih]

theorem alookup_eq_none_of_not_mem (d : Assoc) (k : String) (h : k ∉ d.map Prod.fst) :
    alookup k d = none := by
  induction d with
  | nil => rfl
  | cons kv rest ih =>
      simp only [List.map_cons, List.mem_cons] at h
      push_neg at h
      simp [alookup, Ne.symm h.1, ih h.2]

theorem optOr_assoc (a b c : Option Yaml) : optOr (optOr a b) c = optOr a (optOr b c) := by
  cases a <;> rfl

theorem mergeDict_cons (d : Assoc) (kv : String × Yaml) (rest : Assoc) :
    mergeDict d (kv :: rest) = mergeDict (dictSet d kv.1 kv.2) rest := rfl

theorem alookup_mergeDict (m : Assoc) (hnd : (m.map Prod.fst).Nodup) :
    ∀ (d : Assoc) (k : String),
      alookup k (mergeDict d m) = optOr (alookup k m) (alookup k d) := by
  induction m with
  | nil => intro d k; rfl
  | cons kv rest ih =>
      intro d k
      obtain ⟨k', v'⟩ := kv
      simp only [List.map_cons, List.nodup_cons] at hnd
      rw [mergeDict_cons, ih hnd.2]
      by_cases h : k' = k
      · subst h
        rw [alookup_eq_none_of_not_mem rest k' hnd.1]
        simp [alookup, alookup_dictSet_self, optOr]
      · rw [alookup_dictSet_ne d k k' v' h]
        simp [alookup, h, optOr]

theorem mergeAll_cons (d : Assoc) (m : Assoc) (rest : List Assoc) :
    mergeAll d (m :: rest) = mergeAll (mergeDict d m) rest := rfl

theorem alookup_mergeAll (mods : List Assoc) (hnd : ∀ m ∈ mods, (m.map Prod.fst).Nodup) :
    ∀ (d : Assoc) (k : String),
      alookup k (mergeAll d mods) = optOr (lastHit k mods) (alookup k d) := by
  induction mods with
  | nil => intro d k; rfl
  | cons m rest ih =>
      intro d k
      have hm : (m.map Prod.fst).Nodup := hnd m (List.mem_cons_self m rest)
      have hrest : ∀ m' ∈ rest, (m'.map Prod.fst).Nodup :=
        fun m' h' => hnd m' (List.mem_cons_of_mem m h')
      rw [mergeAll_cons, ih hrest, alookup_mergeDict m hm]
      rw [lastHit, optOr_assoc]

theorem loadModules_ok (fs : FS) :
    ∀ (ms : List (String × Assoc)),
      (∀ p ∈ ms, fs.pathExists (modulePath (.str p.1)) = true ∧
        fs.readYaml (modulePath (.str p.1)) = .content (some (.map p.2))) →
      ∀ d : Assoc,
        loadModules fs d (ms.map (fun p => Yaml.str p.1)) =
          (.ok (mergeAll d (ms.map Prod.snd)), ms.map (fun p => modulePath (.str p.1))) := by
  intro ms
  induction ms with
  | nil => intro _ d; rfl
  | cons p rest ih =>
      intro h d
      have hp := h p (List.mem_cons_self p rest)
      have hrest := fun q hq => h q (List.mem_cons_of_mem p hq)
      simp only [List.map_cons, loadModules, hp.1, hp.2, if_true, Option.getD_some]
      rw [ih hrest (mergeDict d p.2)]
      rfl

/-! ### Evaluation of `pyFormat` on the built-in templates -/

theorem pyFormat_tpl_angry0 (nm m : String) :
    pyFormat "{name} 生氣地說：『{msg}』" nm m = .ok (((nm ++ " 生氣地說：『") ++ m) ++ "』") := by
  simp [pyFormat, fmtGo, readField, fmtField, Except.map, ← String.append_assoc,
    String.append_empty]

theorem pyFormat_tpl_angry1 (nm m : String) :
    pyFormat "『{msg}』，{name} 語氣很差。" nm m =
      .ok (((("『" ++ m) ++ "』，") ++ nm) ++ " 語氣很差。") := by
  simp [pyFormat, fmtGo, readField, fmtField, Except.map, ← String.append_assoc,
    String.append_empty]

theorem pyFormat_tpl_happy0 (nm m : String) :
    pyFormat "{name} 開心地說：『{msg}』" nm m = .ok (((nm ++ " 開心地說：『") ++ m) ++ "』") := by
  simp [pyFormat, fmtGo, readField, fmtField, Except.map, ← String.append_assoc,
    String.append_empty]

theorem pyFormat_tpl_happy1 (nm m : String) :
    pyFormat "『{msg}』，{name} 笑得很燦爛。" nm m =
      .ok (((("『" ++ m) ++ "』，") ++ nm) ++ " 笑得很燦爛。") := by
  simp [pyFormat, fmtGo, readField, fmtField, Except.map, ← String.append_assoc,
    String.append_empty]

theorem pyFormat_tpl_neutral0 (nm m : String) :
    pyFormat "{name} 說：『{msg}』" nm m = .ok (((nm ++ " 說：『") ++ m) ++ "』") := by
  simp [pyFormat, fmtGo, readField, fmtField, Except.map, ← String.append_assoc,
    String.append_empty]

theorem pyFormat_tpl_neutral1 (nm m : String) :
    pyFormat "『{msg}』，{name} 平靜地回覆。" nm m =
      .ok (((("『" ++ m) ++ "』，") ++ nm) ++ " 平靜地回覆。") := by
  simp [pyFormat, fmtGo, readField, fmtField, Except.map, ← String.append_assoc,
    String.append_empty]

theorem append3_ne (nm l1 m l2 : String) (h : 0 < l2.length) : ((nm ++ l1) ++ m) ++ l2 ≠ m := by
  intro e
  have := congrArg String.length e
  simp only [String.length_append] at this
  omega

theorem append4_ne (l0 m l1 nm l2 : String) (h : 0 < l1.length) :
    (((l0 ++ m) ++ l1) ++ nm) ++ l2 ≠ m := by
  intro e
  have := congrArg String.length e
  simp only [String.length_append] at this
  omega

/-! ### Claim theorems -/

/-- C1: For every character identifier accepted by the resolution step (no
path separator, a matching file found), if the fully resolved path of the
matched file lies outside the fixed character directory, loading fails with
the path-escape error (HTTP 400) and no file content is read (the list of
opened files is empty). -/
theorem load_rejects_escaping_path (fs : FS) (char_name cand : String)
    (hsep : hasPathSep (pyLower char_name) = false)
    (hcand : resolveCand fs (pyLower char_name) = some cand)
    (hout : fs.insideCharDir (fs.resolvePath cand) = false) :
    load_character_yaml fs char_name = (.error (.http 400 "角色卡路徑越界！"), []) := by
  simp [load_character_yaml, hsep, hcand, hout]

/-- C1 witness: a directory whose `evil.yaml` exists but resolves outside
the character directory; loading fails with the path-escape error and opens
no file. -/
theorem load_rejects_escaping_path_witness :
    resolveCand fsEvil (pyLower "evil") = some "Characters/evil.yaml" ∧
    load_character_yaml fsEvil "evil" = (.error (.http 400 "角色卡路徑越界！"), []) :=
  ⟨rfl, load_rejects_escaping_path fsEvil "evil" "Characters/evil.yaml" (by decide) rfl rfl⟩

/-- C2: For every character identifier that contains a path separator after
lowercasing, `load_character_yaml` fails with the invalid-identifier error
(HTTP 400) for every filesystem — so before any existence check — and no
file content is read. -/
theorem load_rejects_separator (char_name : String)
    (hsep : hasPathSep (pyLower char_name) = true) :
    ∀ fs : FS, load_character_yaml fs char_name =
      (.error (.http 400 "非法角色卡路徑！名稱中包含路徑分隔符。"), []) := by
  intro fs
  simp [load_character_yaml, hsep]

/-- C2 witness: the identifier `"a/b"` is rejected with the
invalid-identifier error on a concrete filesystem. -/
theorem load_rejects_separator_witness :
    hasPathSep (pyLower "a/b") = true ∧
    load_character_yaml fsEmpty "a/b" =
      (.error (.http 400 "非法角色卡路徑！名稱中包含路徑分隔符。"), []) :=
  ⟨by decide, load_rejects_separator "a/b" (by decide) fsEmpty⟩

/-- C4: formatting a template containing `\x7bname\x7d` and `\x7bmsg\x7d`
embeds the display name and the raw message literally; in particular the
spec's worked example: POST /respond with message "我很生氣" and characters
["lior"] against a `lior.yaml` with stage name "Lior" and angry template
"\x7bname\x7d怒道：\x7bmsg\x7d" returns exactly the single reply
"Lior怒道：我很生氣" under the name "lior". -/
theorem respond_embeds_placeholders (nm m : String) :
    pyFormat "{name}怒道：{msg}" nm m = .ok ((nm ++ "怒道：") ++ m) ∧
    respond fsLior (fun _ => 0) ⟨"我很生氣", some ["lior"]⟩ =
      ⟨[⟨"lior", "Lior怒道：我很生氣"⟩]⟩ := by
  constructor
  · simp [pyFormat, fmtGo, readField, fmtField, Except.map, ← String.append_assoc,
      String.append_empty]
  · rfl

/-- C10: a POST /respond whose `characters` field is the empty list behaves
exactly as if the field were absent: the default character "lior" is used
and exactly one reply entry is returned. -/
theorem respond_empty_characters (fs : FS) (rand : Nat → Nat) (m : String) :
    respond fs rand ⟨m, some []⟩ = respond fs rand ⟨m, none⟩ ∧
    (respond fs rand ⟨m, some []⟩).replies.length = 1 ∧
    ((respond fs rand ⟨m, some []⟩).replies.getD 0 ⟨"", ""⟩).name = DEFAULT_CHAR := by
  refine ⟨rfl, rfl, ?_⟩
  simp only [respond, effChars, List.isEmpty, respondFrom, List.getD, List.get?]
  exact processChar_name fs (rand 0) m DEFAULT_CHAR

/-- C3: mood classification yields exactly one of angry/happy/neutral —
angry iff the lowercased message contains an angry keyword; otherwise happy
iff it contains a happy keyword; otherwise neutral, with the angry check
taking priority. -/
theorem classifyMood_spec (user_msg : String) :
    (classifyMood user_msg = .angry ↔
      ∃ k ∈ angryKeywords, strContains (pyLower user_msg) k = true) ∧
    (classifyMood user_msg = .happy ↔
      (¬ ∃ k ∈ angryKeywords, strContains (pyLower user_msg) k = true) ∧
      ∃ k ∈ happyKeywords, strContains (pyLower user_msg) k = true) ∧
    (classifyMood user_msg = .neutral ↔
      (¬ ∃ k ∈ angryKeywords, strContains (pyLower user_msg) k = true) ∧
      ¬ ∃ k ∈ happyKeywords, strContains (pyLower user_msg) k = true) := by
  simp only [classifyMood]
  rcases h1 : angryKeywords.any (fun k => strContains (pyLower user_msg) k) with _ | _ <;>
    rcases h2 : happyKeywords.any (fun k => strContains (pyLower user_msg) k) with _ | _ <;>
      simp_all [List.any_eq_true]

/-- C9: GET /list_roles returns exactly the stems of the regular files in
the character directory whose extension (compared case-insensitively, as
the code lowercases the suffix) is .yaml or .yml — excluding directories
and files with any other extension. -/
theorem list_roles_spec (fs : FS) (s : String) :
    s ∈ list_roles fs ↔
      ∃ f ∈ fs.charDirList, f.isFile = true ∧
        (pyLower (pathSuffix f.name) = ".yaml" ∨ pyLower (pathSuffix f.name) = ".yml") ∧
        pathStem f.name = s := by
  simp only [list_roles, List.mem_map, List.mem_filter, Bool.and_eq_true, Bool.or_eq_true,
    beq_iff_eq]
  constructor
  · rintro ⟨f, ⟨hf, hfile, hsuf⟩, hstem⟩
    exact ⟨f, hf, hfile, hsuf, hstem⟩
  · rintro ⟨f, hf, hfile, hsuf, hstem⟩
    exact ⟨f, ⟨hf, hfile, hsuf⟩, hstem⟩

/-- C7: every POST /respond yields exactly one reply entry per requested
character, in request order; each entry depends only on its own character
(independent processing), and a character whose load fails contributes an
error-text entry while the request still returns the full list. -/
theorem respond_per_character (fs : FS) (rand : Nat → Nat) (payload : MessageIn) :
    (respond fs rand payload).replies.length = (effChars payload).length ∧
    (∀ i, i < (effChars payload).length →
      (respond fs rand payload).replies.getD i ⟨"", ""⟩ =
        processChar fs (rand i) payload.message ((effChars payload).getD i "")) ∧
    (∀ i, i < (effChars payload).length → ∀ e,
      loadChar fs ((effChars payload).getD i "") = .error e →
      (respond fs rand payload).replies.getD i ⟨"", ""⟩ =
        ⟨(effChars payload).getD i "",
         errReplyText ((effChars payload).getD i "") e⟩) := by
  refine ⟨respondFrom_length fs rand payload.message (effChars payload) 0, ?_, ?_⟩
  · intro i hi
    simpa using respondFrom_getD fs rand payload.message (effChars payload) 0 i hi
  · intro i hi e he
    have h1 := respondFrom_getD fs rand payload.message (effChars payload) 0 i hi
    simp only [Nat.zero_add] at h1
    rw [respond] at *
    rw [h1, processChar, he]

/-- C7 witness: a request for the missing character "ghost" still succeeds
with one entry whose reply is the error text. -/
theorem respond_per_character_witness :
    (respond fsEmpty (fun _ => 0) ⟨"hi", some ["ghost"]⟩).replies.length = 1 ∧
    (respond fsEmpty (fun _ => 0) ⟨"hi", some ["ghost"]⟩).replies.getD 0 ⟨"", ""⟩ =
      ⟨"ghost", "錯誤：無法載入或處理角色 ghost (角色卡 ghost 不存在！)"⟩ :=
  ⟨(respond_per_character fsEmpty (fun _ => 0) ⟨"hi", some ["ghost"]⟩).1,
   (respond_per_character fsEmpty (fun _ => 0) ⟨"hi", some ["ghost"]⟩).2.2 0 (by decide)
     (.http 404 "角色卡 ghost 不存在！") rfl⟩

/-- C8: module merging is shallow with last-writer-wins — when the
character card and all mounted module files exist and parse to mappings,
the loaded data is the card mapping folded with each module's top-level
keys in list order, and for every key the resulting value is the value from
the LAST module containing that key (falling back to the card), replacing
earlier values wholesale even when they are nested mappings. -/
theorem load_merges_modules (fs : FS) (char_name : String) (d0 cmd : Assoc)
    (ms : List (String × Assoc))
    (hsep : hasPathSep (pyLower char_name) = false)
    (hex : fs.pathExists (charPath (pyLower char_name) ".yaml") = true)
    (hin : fs.insideCharDir (fs.resolvePath (charPath (pyLower char_name) ".yaml")) = true)
    (hrd : fs.readYaml (fs.resolvePath (charPath (pyLower char_name) ".yaml")) =
      .content (some (.map d0)))
    (hcm : alookup "character_modules" d0 = some (.map cmd))
    (hmm : alookup "mounted_modules" cmd = some (.list (ms.map (fun p => Yaml.str p.1))))
    (hmods : ∀ p ∈ ms, fs.pathExists (modulePath (.str p.1)) = true ∧
      fs.readYaml (modulePath (.str p.1)) = .content (some (.map p.2)))
    (hnd : ∀ p ∈ ms, ((p.2).map Prod.fst).Nodup)
    (hbi : containsKey "basic_info" (mergeAll d0 (ms.map Prod.snd)) = true) :
    loadChar fs char_name = .ok (.map (mergeAll d0 (ms.map Prod.snd))) ∧
    ∀ k, alookup k (mergeAll d0 (ms.map Prod.snd)) =
      optOr (lastHit k (ms.map Prod.snd)) (alookup k d0) := by
  constructor
  · have hload := loadModules_ok fs ms hmods d0
    simp only [loadChar, load_character_yaml, hsep, Bool.false_eq_true, if_false,
      resolveCand, hex, if_true, hin, hrd, Option.getD_some, hcm, hmm, yamlIter, hload, hbi]
  · intro k
    have hnd2 : ∀ m ∈ ms.map Prod.snd, (m.map Prod.fst).Nodup := by
      intro m hm
      obtain ⟨p, hp, rfl⟩ := List.mem_map.mp hm
      exact hnd p hp
    exact alookup_mergeAll (ms.map Prod.snd) hnd2 d0 k

/-- C8 witness: a card with nested mapping `k`, mounting modules `a` then
`b` that both define `k`; the loaded value of `k` is module `b`'s whole
mapping, with the card's and module `a`'s nested entries gone. -/
theorem load_merges_modules_witness :
    loadChar fsMods "hero" = .ok (.map (mergeAll heroYaml (heroMods.map Prod.snd))) ∧
    alookup "k" (mergeAll heroYaml (heroMods.map Prod.snd)) =
      optOr (lastHit "k" (heroMods.map Prod.snd)) (alookup "k" heroYaml) ∧
    alookup "k" (mergeAll heroYaml (heroMods.map Prod.snd)) =
      some (.map [("z", .int 3)]) := by
  have h := load_merges_modules fsMods "hero" heroYaml
    [("mounted_modules", .list [.str "a", .str "b"])] heroMods
    (by decide) rfl rfl rfl rfl rfl
    (by
      intro p hp
      simp only [heroMods, List.mem_cons, List.not_mem_nil, or_false] at hp
      rcases hp with rfl | rfl
      · exact ⟨rfl, rfl⟩
      · exact ⟨rfl, rfl⟩)
    (by
      intro p hp
      simp only [heroMods, List.mem_cons, List.not_mem_nil, or_false] at hp
      rcases hp with rfl | rfl <;> decide)
    rfl
  exact ⟨h.1, h.2 "k", rfl⟩

/-- C5 counterexample: a character definition with no speech_patterns entry
for the classified mood and no neutral entry does NOT get the raw message
back — pick_reply renders a built-in default template instead. -/
theorem pick_reply_no_passthrough_counterexample :
    pick_reply (.map [("basic_info", .map [("stage_name", .str "Zed")])]) "hi" 0 =
      .ok "Zed 說：『hi』" ∧ "Zed 說：『hi』" ≠ "hi" :=
  ⟨rfl, by decide⟩

/-- C5 (amended): template selection falls back over the merge of the
built-in default templates with the character's speech_patterns (character
entries winning): when the character defines neither the classified mood
nor neutral, one of the two built-in default templates for that mood is
selected and formatted — the reply is never the raw message in that case;
the literal passthrough arises only when the merged entry is neither a
nonempty list nor a string. -/
theorem pick_reply_builtin_default (d bim spm : Assoc) (user_msg : String) (rand : Nat)
    (hbi : alookup "basic_info" d = some (.map bim))
    (hsp : (alookup "speech_patterns" d).getD (.map []) = .map spm)
    (hm : alookup (moodKey (classifyMood user_msg)) spm = none)
    (hn : alookup "neutral" spm = none) :
    (∃ t ∈ mood_templates (classifyMood user_msg),
      pick_reply (.map d) user_msg rand =
        .ok (formatStage (.str t) (pyStr (nameFrom bim)) user_msg)) ∧
    ∀ s, pick_reply (.map d) user_msg rand = .ok s → s ≠ user_msg := by
  have hmain : pick_reply (.map d) user_msg rand =
      .ok (formatStage (selectTpl spm (classifyMood user_msg) rand)
        (pyStr (nameFrom bim)) user_msg) := by
    simp [pick_reply, hsp, hbi]
  rcases Nat.mod_two_eq_zero_or_one rand with h2 | h2 <;> cases hmood : classifyMood user_msg
  · rw [hmood] at hmain hm
    simp only [moodKey] at hm
    have hsel : selectTpl spm .angry rand = .str "{name} 生氣地說：『{msg}』" := by
      simp [selectTpl, moodKey, hm, Yaml.truthy, pyChoice, mood_templates, h2]
    rw [hsel] at hmain
    have hfmt : formatStage (.str "{name} 生氣地說：『{msg}』") (pyStr (nameFrom bim)) user_msg =
        ((pyStr (nameFrom bim) ++ " 生氣地說：『") ++ user_msg) ++ "』" := by
      simp [formatStage, pyFormat_tpl_angry0]
    refine ⟨⟨_, by simp [mood_templates], hmain⟩, ?_⟩
    intro s hs
    have h3 := hmain.symm.trans hs
    injection h3 with h4
    rw [← h4, hfmt]
    exact append3_ne _ _ _ _ (by decide)
  · rw [hmood] at hmain hm
    simp only [moodKey] at hm
    have hsel : selectTpl spm .happy rand = .str "{name} 開心地說：『{msg}』" := by
      simp [selectTpl, moodKey, hm, Yaml.truthy, pyChoice, mood_templates, h2]
    rw [hsel] at hmain
    have hfmt : formatStage (.str "{name} 開心地說：『{msg}』") (pyStr (nameFrom bim)) user_msg =
        ((pyStr (nameFrom bim) ++ " 開心地說：『") ++ user_msg) ++ "』" := by
      simp [formatStage, pyFormat_tpl_happy0]
    refine ⟨⟨_, by simp [mood_templates], hmain⟩, ?_⟩
    intro s hs
    have h3 := hmain.symm.trans hs
    injection h3 with h4
    rw [← h4, hfmt]
    exact append3_ne _ _ _ _ (by decide)
  · rw [hmood] at hmain hm
    simp only [moodKey] at hm
    have hsel : selectTpl spm .neutral rand = .str "{name} 說：『{msg}』" := by
      simp [selectTpl, moodKey, hm, Yaml.truthy, pyChoice, mood_templates, h2]
    rw [hsel] at hmain
    have hfmt : formatStage (.str "{name} 說：『{msg}』") (pyStr (nameFrom bim)) user_msg =
        ((pyStr (nameFrom bim) ++ " 說：『") ++ user_msg) ++ "』" := by
      simp [formatStage, pyFormat_tpl_neutral0]
    refine ⟨⟨_, by simp [mood_templates], hmain⟩, ?_⟩
    intro s hs
    have h3 := hmain.symm.trans hs
    injection h3 with h4
    rw [← h4, hfmt]
    exact append3_ne _ _ _ _ (by decide)
  · rw [hmood] at hmain hm
    simp only [moodKey] at hm
    have hsel : selectTpl spm .angry rand = .str "『{msg}』，{name} 語氣很差。" := by
      simp [selectTpl, moodKey, hm, Yaml.truthy, pyChoice, mood_templates, h2]
    rw [hsel] at hmain
    have hfmt : formatStage (.str "『{msg}』，{name} 語氣很差。") (pyStr (nameFrom bim)) user_msg =
        (((("『" ++ user_msg) ++ "』，") ++ pyStr (nameFrom bim)) ++ " 語氣很差。") := by
      simp [formatStage, pyFormat_tpl_angry1]
    refine ⟨⟨_, by simp [mood_templates], hmain⟩, ?_⟩
    intro s hs
    have h3 := hmain.symm.trans hs
    injection h3 with h4
    rw [← h4, hfmt]
    exact append4_ne _ _ _ _ _ (by decide)
  · rw [hmood] at hmain hm
    simp only [moodKey] at hm
    have hsel : selectTpl spm .happy rand = .str "『{msg}』，{name} 笑得很燦爛。" := by
      simp [selectTpl, moodKey, hm, Yaml.truthy, pyChoice, mood_templates, h2]
    rw [hsel] at hmain
    have hfmt : formatStage (.str "『{msg}』，{name} 笑得很燦爛。") (pyStr (nameFrom bim)) user_msg =
        (((("『" ++ user_msg) ++ "』，") ++ pyStr (nameFrom bim)) ++ " 笑得很燦爛。") := by
      simp [formatStage, pyFormat_tpl_happy1]
    refine ⟨⟨_, by simp [mood_templates], hmain⟩, ?_⟩
    intro s hs
    have h3 := hmain.symm.trans hs
    injection h3 with h4
    rw [← h4, hfmt]
    exact append4_ne _ _ _ _ _ (by decide)
  · rw [hmood] at hmain hm
    simp only [moodKey] at hm
    have hsel : selectTpl spm .neutral rand = .str "『{msg}』，{name} 平靜地回覆。" := by
      simp [selectTpl, moodKey, hm, Yaml.truthy, pyChoice, mood_templates, h2]
    rw [hsel] at hmain
    have hfmt : formatStage (.str "『{msg}』，{name} 平靜地回覆。") (pyStr (nameFrom bim)) user_msg =
        (((("『" ++ user_msg) ++ "』，") ++ pyStr (nameFrom bim)) ++ " 平靜地回覆。") := by
      simp [formatStage, pyFormat_tpl_neutral1]
    refine ⟨⟨_, by simp [mood_templates], hmain⟩, ?_⟩
    intro s hs
    have h3 := hmain.symm.trans hs
    injection h3 with h4
    rw [← h4, hfmt]
    exact append4_ne _ _ _ _ _ (by decide)

/-- C5 witness: a character with only `basic_info` never gets the raw
message "hi" back. -/
theorem pick_reply_builtin_default_witness :
    pick_reply (.map [("basic_info", .map [("stage_name", .str "Zed")])]) "hi" 0 ≠
      .ok "hi" := by
  intro hc
  exact (pick_reply_builtin_default [("basic_info", .map [("stage_name", .str "Zed")])]
    [("stage_name", .str "Zed")] [] "hi" 0 rfl rfl rfl rfl).2 "hi" hc rfl

/-- C6 counterexample: a selected template lacking both placeholders does
not produce a default string containing name and message — `str.format`
succeeds and the template text is returned as-is. -/
theorem pick_reply_lacking_placeholders_counterexample :
    pick_reply (.map [("basic_info", .map [("stage_name", .str "Zed")]),
        ("speech_patterns", .map [("neutral", .str "hello")])]) "hi" 0 = .ok "hello" ∧
    strContains "hello" "Zed" = false ∧ strContains "hello" "hi" = false :=
  ⟨rfl, by decide, by decide⟩

/-- C6 (amended): pick_reply never propagates a formatting exception — it
always returns `.ok` of the formatting stage once the character data is
well shaped; a template whose formatting raises KeyError (an unknown
placeholder) falls back to the default string containing the display name
and the raw message, any other formatting failure falls back to the second
default string (also containing both), and a template that merely lacks the
placeholders formats successfully and is returned as-is. -/
theorem pick_reply_format_graceful (d bim spm : Assoc) (user_msg : String) (rand : Nat)
    (hbi : alookup "basic_info" d = some (.map bim))
    (hsp : (alookup "speech_patterns" d).getD (.map []) = .map spm) :
    pick_reply (.map d) user_msg rand =
      .ok (formatStage (selectTpl spm (classifyMood user_msg) rand)
        (pyStr (nameFrom bim)) user_msg) ∧
    (∀ t, pyFormat t (pyStr (nameFrom bim)) user_msg = .error .keyErr →
      formatStage (.str t) (pyStr (nameFrom bim)) user_msg =
        ((pyStr (nameFrom bim) ++ " 回覆：") ++ user_msg) ++ " (模板錯誤)") ∧
    (∀ t e, pyFormat t (pyStr (nameFrom bim)) user_msg = .error e → e ≠ FmtErr.keyErr →
      formatStage (.str t) (pyStr (nameFrom bim)) user_msg =
        ((pyStr (nameFrom bim) ++ " 回覆：") ++ user_msg) ++ " (格式化錯誤)") ∧
    (∀ t s, pyFormat t (pyStr (nameFrom bim)) user_msg = .ok s →
      formatStage (.str t) (pyStr (nameFrom bim)) user_msg = s) := by
  refine ⟨by simp [pick_reply, hsp, hbi], ?_, ?_, ?_⟩
  · intro t ht
    simp [formatStage, ht]
  · intro t e ht hne
    cases e with
    | keyErr => exact absurd rfl hne
    | idxErr => simp [formatStage, ht]
    | valErr => simp [formatStage, ht]
  · intro t s ht
    simp [formatStage, ht]

/-- C6 witness: a template with an unknown placeholder produces the default
string, and pick_reply still returns `.ok`. -/
theorem pick_reply_format_graceful_witness :
    pick_reply (.map [("basic_info", Yaml.map [("stage_name", Yaml.str "Zed")]),
        ("speech_patterns", Yaml.map [("neutral", Yaml.str "{foo}")])]) "hi" 0 =
      .ok (formatStage (selectTpl [("neutral", Yaml.str "{foo}")] (classifyMood "hi") 0)
        (pyStr (nameFrom [("stage_name", Yaml.str "Zed")])) "hi") ∧
    formatStage (.str "{foo}") "Zed" "hi" = "Zed 回覆：hi (模板錯誤)" := by
  have h := pick_reply_format_graceful
    [("basic_info", Yaml.map [("stage_name", Yaml.str "Zed")]),
     ("speech_patterns", Yaml.map [("neutral", Yaml.str "{foo}")])]
    [("stage_name", Yaml.str "Zed")] [("neutral", Yaml.str "{foo}")] "hi" 0 rfl rfl
  exact ⟨h.1, h.2.1 "{foo}" rfl⟩
